import Mathlib

/-!
Verification of the Netural/Snippets video widget
(`VideoController.ts`, `YouTubeService.ts`, DOM utils) against its
natural-language specification.  The TypeScript sources are shallowly
embedded: DOM/vendor state is made explicit, numbers are rationals,
fallible results are `Option`/`Except`.
-/

/-! ## PlayerState (source: `enum PlayerState` in VideoController.ts) -/

/-- The player states reported by the YouTube backend, in source order. -/
inductive PlayerState where
  | ENDED
  | PLAYING
  | PAUSED
  | BUFFERING
  | CUED
deriving DecidableEq, Repr

/-! ## YouTubeService (source: YouTubeService.ts)

The service holds `_isLoadingAPI`, `_API`, `_callbacks`.  We additionally
record the observable effects: how many script tags were appended to the
document (`scripts`), whether the global ready hook was registered, and
the ordered log of callback invocations (`invoked`).  Callbacks are
identified by natural numbers; the captured API handle is abstracted to a
natural number. -/

structure YTService where
  isLoadingAPI : Bool
  api : Option Nat
  callbacks : List Nat
  scripts : Nat
  hookRegistered : Bool
  invoked : List Nat
deriving DecidableEq, Repr

/-- A fresh service instance: nothing loading, no API, empty queue. -/
def initialService : YTService :=
  { isLoadingAPI := false, api := none, callbacks := [], scripts := 0,
    hookRegistered := false, invoked := [] }

/-- `_resolveCallbacks`: call every queued callback in order, then clear the queue. -/
def resolveCallbacks (s : YTService) : YTService :=
  { s with invoked := s.invoked ++ s.callbacks, callbacks := [] }

/-- `_loadAPI` (private): if a load is in flight do nothing; otherwise mark
loading, register the global `onYouTubeIframeAPIReady` hook and append the
iframe-api script tag to the document. -/
def loadAPIInternal (s : YTService) : YTService :=
  if s.isLoadingAPI then s
  else { s with isLoadingAPI := true, hookRegistered := true, scripts := s.scripts + 1 }

/-- `loadAPI(callback?)`: queue the callback when one is given; if the API is
already captured resolve the queue, otherwise trigger the (idempotent) load. -/
def loadAPI (cb : Option Nat) (s : YTService) : YTService :=
  let s' := match cb with
    | some c => { s with callbacks := s.callbacks ++ [c] }
    | none => s
  if s'.api.isSome then resolveCallbacks s' else loadAPIInternal s'

/-- The `onYouTubeIframeAPIReady` hook firing with vendor handle `yt`:
clear the loading flag, capture the API, resolve the queue. -/
def hookFires (yt : Nat) (s : YTService) : YTService :=
  resolveCallbacks { s with isLoadingAPI := false, api := some yt }

/-- `get API`: if the API has not been captured, trigger `_loadAPI` as a side
effect and return `none`; otherwise return the captured handle unchanged. -/
def getAPI (s : YTService) : Option Nat × YTService :=
  match s.api with
  | none => (none, loadAPIInternal s)
  | some a => (some a, s)

/-- Registering all callbacks of `cs` in order via `loadAPI`. -/
def loadAPIAll (cs : List Nat) : YTService :=
  cs.foldl (fun st c => loadAPI (some c) st) initialService

theorem loadAPI_some_of_pending (c : Nat) (s : YTService)
    (h1 : s.api = none) (h2 : s.isLoadingAPI = true) :
    loadAPI (some c) s = { s with callbacks := s.callbacks ++ [c] } := by
  simp [loadAPI, loadAPIInternal, h1, h2]

theorem loadAPIAll_cons_queue (l : List Nat) (s : YTService)
    (h1 : s.api = none) (h2 : s.isLoadingAPI = true) :
    l.foldl (fun st c => loadAPI (some c) st) s = { s with callbacks := s.callbacks ++ l } := by
  induction l generalizing s with
  | nil => simp
  | cons c t ih =>
    rw [List.foldl_cons, loadAPI_some_of_pending c s h1 h2,
      ih { s with callbacks := s.callbacks ++ [c] } h1 h2]
    simp

theorem loadAPIAll_eq (c : Nat) (t : List Nat) :
    loadAPIAll (c :: t) =
      { isLoadingAPI := true, api := none, callbacks := c :: t, scripts := 1,
        hookRegistered := true, invoked := [] } := by
  have h0 : loadAPI (some c) initialService =
      { isLoadingAPI := true, api := none, callbacks := [c], scripts := 1,
        hookRegistered := true, invoked := [] } := by
    simp [loadAPI, loadAPIInternal, initialService]
  rw [loadAPIAll, List.foldl_cons, h0, loadAPIAll_cons_queue t _ rfl rfl]
  simp

/-- C1: if `loadAPI` is called with N function callbacks before the vendor
readiness hook fires, all N callbacks are held in the pending queue in
registration order, exactly one script tag has been injected in total, none
of them has been invoked yet, and when the hook fires each callback is
invoked exactly once in registration order, after which the queue is empty. -/
theorem loadAPI_queue_spec (cs : List Nat) (yt : Nat) (hne : cs ≠ []) :
    (loadAPIAll cs).callbacks = cs ∧
    (loadAPIAll cs).scripts = 1 ∧
    (loadAPIAll cs).invoked = [] ∧
    (loadAPIAll cs).api = none ∧
    (hookFires yt (loadAPIAll cs)).invoked = cs ∧
    (hookFires yt (loadAPIAll cs)).callbacks = [] := by
  obtain ⟨c, t, rfl⟩ : ∃ c t, cs = c :: t := by
    cases cs with
    | nil => exact absurd rfl hne
    | cons c t => exact ⟨c, t, rfl⟩
  rw [loadAPIAll_eq]
  refine ⟨rfl, rfl, rfl, rfl, ?_, rfl⟩
  simp [hookFires, resolveCallbacks]

/-- Witness for C1 at the concrete callback sequence `[0, 1, 2]`. -/
theorem loadAPI_queue_spec_witness :
    ([0, 1, 2] : List Nat) ≠ [] ∧
    (loadAPIAll [0, 1, 2]).callbacks = [0, 1, 2] ∧
    (loadAPIAll [0, 1, 2]).scripts = 1 ∧
    (hookFires 7 (loadAPIAll [0, 1, 2])).invoked = [0, 1, 2] ∧
    (hookFires 7 (loadAPIAll [0, 1, 2])).callbacks = [] := by
  have h := loadAPI_queue_spec [0, 1, 2] 7 (by decide)
  exact ⟨by decide, h.1, h.2.1, h.2.2.2.2.1, h.2.2.2.2.2⟩

/-- C10: reading the `API` property when the vendor API has not been captured
returns `none` and, as a side effect, triggers the script load (which is a
no-op when a load is already in flight, and injects the script otherwise);
once the API has been captured, reading the property returns the captured
handle and leaves the service unchanged. -/
theorem getAPI_spec (s : YTService) :
    (s.api = none →
      (getAPI s).1 = none ∧
      (getAPI s).2 = loadAPIInternal s ∧
      (s.isLoadingAPI = true → (getAPI s).2 = s) ∧
      (s.isLoadingAPI = false →
        (getAPI s).2.scripts = s.scripts + 1 ∧
        (getAPI s).2.isLoadingAPI = true)) ∧
    (∀ a, s.api = some a → getAPI s = (some a, s)) := by
  constructor
  · intro h
    refine ⟨by simp [getAPI, h], by simp [getAPI, h], ?_, ?_⟩
    · intro hl; simp [getAPI, h, loadAPIInternal, hl]
    · intro hl; simp [getAPI, h, loadAPIInternal, hl]
  · intro a h
    simp [getAPI, h]

/-- Witness for C10 at a concrete not-yet-loaded service state. -/
theorem getAPI_spec_witness :
    initialService.api = none ∧
    (getAPI initialService).1 = none ∧
    (getAPI initialService).2.scripts = 1 := by
  have h := (getAPI_spec initialService).1 rfl
  exact ⟨rfl, h.1, (h.2.2.2 rfl).1⟩

/-! ## Time formatting (source: `generateTimeIndicator` in VideoController.ts)

`generateTimeIndicator(seconds)` computes `minutes = Math.floor(seconds/60)`,
`seconds = Math.round(seconds - minutes*60)` and concatenates
`(minutes < 10 ? '0'+minutes : ''+minutes) + ':' + (...)`.  JavaScript numbers
are modelled as rationals; `Math.floor` is `Int.floor` and `Math.round`
is Mathlib's `round` (both round half-up, as JavaScript does).  Decimal
rendering of a number is made explicit (`natDigits` / `intDigits`). -/

/-- Decimal digit list of a natural number (JavaScript `String(n)`). -/
def natDigits (n : Nat) : List Char :=
  if n < 10 then [Nat.digitChar n]
  else natDigits (n / 10) ++ [Nat.digitChar (n % 10)]
termination_by n
decreasing_by exact Nat.div_lt_self (by omega) (by omega)

/-- Decimal rendering of an integer (JavaScript `String(i)`). -/
def intDigits (i : Int) : List Char :=
  if i < 0 then '-' :: natDigits i.natAbs else natDigits i.toNat

/-- The source's zero padding: `i < 10 ? '0' + i : i + ''`. -/
def zeroPad (i : Int) : List Char :=
  if i < 10 then '0' :: intDigits i else intDigits i

/-- `generateTimeIndicator`, on the characters it produces. -/
def generateTimeIndicator (seconds : ℚ) : List Char :=
  let minutes : ℤ := ⌊seconds / 60⌋
  let secs : ℤ := round (seconds - (minutes : ℚ) * 60)
  zeroPad minutes ++ ':' :: zeroPad secs

theorem digitChar_isDigit (k : Nat) (hk : k < 10) : (Nat.digitChar k).isDigit = true := by
  interval_cases k <;> decide

theorem natDigits_all_digit (n : Nat) : ∀ c ∈ natDigits n, c.isDigit = true := by
  induction n using Nat.strong_induction_on with
  | _ n ih =>
    rw [natDigits]
    split
    · intro c hc
      rw [List.mem_singleton] at hc
      subst hc
      exact digitChar_isDigit n (by omega)
    · intro c hc
      rcases List.mem_append.mp hc with h | h
      · exact ih (n / 10) (Nat.div_lt_self (by omega) (by omega)) c h
      · rw [List.mem_singleton] at h
        subst h
        exact digitChar_isDigit (n % 10) (Nat.mod_lt _ (by omega))

theorem natDigits_length_pos (n : Nat) : 1 ≤ (natDigits n).length := by
  rw [natDigits]
  split
  · simp
  · simp

theorem natDigits_length_two (n : Nat) (h : 10 ≤ n) : 2 ≤ (natDigits n).length := by
  rw [natDigits]
  split
  · omega
  · have := natDigits_length_pos (n / 10)
    simp only [List.length_append, List.length_cons, List.length_nil]
    omega

/-- For a nonnegative integer, the padded field has at least two characters,
all of them decimal digits. -/
theorem zeroPad_format (i : Int) (hi : 0 ≤ i) :
    2 ≤ (zeroPad i).length ∧ ∀ c ∈ zeroPad i, c.isDigit = true := by
  have hneg : ¬ i < 0 := by omega
  by_cases h10 : i < 10
  · rw [zeroPad, if_pos h10, intDigits, if_neg hneg]
    refine ⟨?_, ?_⟩
    · have := natDigits_length_pos i.toNat
      simp only [List.length_cons]
      omega
    · intro c hc
      rcases List.mem_cons.mp hc with h | h
      · subst h; decide
      · exact natDigits_all_digit i.toNat c h
  · rw [zeroPad, if_neg h10, intDigits, if_neg hneg]
    exact ⟨natDigits_length_two i.toNat (by omega), natDigits_all_digit i.toNat⟩

/-- C4: for every `seconds ≥ 0` the time-indicator formatter computes
`minutes = ⌊seconds/60⌋` and `remSeconds = round(seconds - minutes*60)` and
outputs `zeroPad minutes ++ ":" ++ zeroPad remSeconds` with single digits
left-padded by `'0'`, so the output is `MM:SS` with both fields at least two
decimal digits; in particular `formatTime 65 = "01:05"` and
`formatTime 5 = "00:05"`. -/
theorem generateTimeIndicator_spec (seconds : ℚ) (hs : 0 ≤ seconds) :
    generateTimeIndicator seconds =
      zeroPad ⌊seconds / 60⌋ ++ ':' :: zeroPad (round (seconds - (⌊seconds / 60⌋ : ℚ) * 60)) ∧
    (∃ a b : List Char, generateTimeIndicator seconds = a ++ ':' :: b ∧
      2 ≤ a.length ∧ 2 ≤ b.length ∧
      (∀ c ∈ a, c.isDigit = true) ∧ (∀ c ∈ b, c.isDigit = true)) ∧
    generateTimeIndicator 65 = ['0', '1', ':', '0', '5'] ∧
    generateTimeIndicator 5 = ['0', '0', ':', '0', '5'] := by
  have e65 : generateTimeIndicator 65 = ['0', '1', ':', '0', '5'] := by
    simp only [generateTimeIndicator]
    norm_num
    simp [zeroPad, intDigits, natDigits]
    decide
  have e5 : generateTimeIndicator 5 = ['0', '0', ':', '0', '5'] := by
    simp only [generateTimeIndicator]
    norm_num
    simp [zeroPad, intDigits, natDigits]
    decide
  refine ⟨rfl, ?_, e65, e5⟩
  have hm : 0 ≤ ⌊seconds / 60⌋ := Int.floor_nonneg.mpr (by positivity)
  have hle : (⌊seconds / 60⌋ : ℚ) ≤ seconds / 60 := Int.floor_le _
  have hround : 0 ≤ round (seconds - (⌊seconds / 60⌋ : ℚ) * 60) := by
    rw [round_eq]
    exact Int.floor_nonneg.mpr (by linarith)
  obtain ⟨ha1, ha2⟩ := zeroPad_format _ hm
  obtain ⟨hb1, hb2⟩ := zeroPad_format _ hround
  exact ⟨zeroPad _, zeroPad _, rfl, ha1, hb1, ha2, hb2⟩

/-- Witness for C4 at `seconds = 65`. -/
theorem generateTimeIndicator_spec_witness :
    (0 : ℚ) ≤ 65 ∧ generateTimeIndicator 65 = ['0', '1', ':', '0', '5'] := by
  have h := generateTimeIndicator_spec 65 (by norm_num)
  exact ⟨by norm_num, h.2.2.1⟩

/-! ## VideoController (source: VideoController.ts)

The widget owns an optional native `<video>` element and an optional YouTube
player handle (at most one of them is created by the constructor), the
`muted` flag, the two CSS state classes on the root element
(`video--is-playing`, `video--is-muted`), and the UI nodes it mutates
(progress fill width, current-time/length labels and hidden state, buffer
fill offsets).  Vendor calls `playVideo`/`pauseVideo` are modelled as the
player reaching the corresponding state; `seekTo` is recorded in
`seekedTo`. -/

structure VideoEl where
  paused : Bool
  muted : Bool
  currentTime : ℚ
  duration : ℚ
  buffered : List (ℚ × ℚ)
deriving DecidableEq, Repr

structure YTPlayer where
  playerState : PlayerState
  muted : Bool
  currentTime : ℚ
  duration : ℚ
  seekedTo : Option ℤ
deriving DecidableEq, Repr

structure VideoCtrl where
  videoElement : Option VideoEl
  youtubePlayer : Option YTPlayer
  muted : Bool
  classPlaying : Bool
  classMuted : Bool
  currentTimeHidden : Bool
  progressWidth : ℚ
  currentTimeText : List Char
  lengthText : List Char
  bufferLeft : ℤ
  bufferWidth : ℤ
deriving DecidableEq, Repr

/-- `getDuration`: read through to the active backend; undefined (`none`)
when no backend is active. -/
def getDuration (vc : VideoCtrl) : Option ℚ :=
  match vc.videoElement with
  | some v => some v.duration
  | none =>
    match vc.youtubePlayer with
    | some y => some y.duration
    | none => none

/-- `getCurrentTime`: read through to the active backend. -/
def getCurrentTime (vc : VideoCtrl) : Option ℚ :=
  match vc.videoElement with
  | some v => some v.currentTime
  | none =>
    match vc.youtubePlayer with
    | some y => some y.currentTime
    | none => none

/-- `isPlaying`: `!videoElement.paused` for the native backend,
`getPlayerState() === PlayerState.PLAYING` for YouTube, undefined otherwise. -/
def isPlaying (vc : VideoCtrl) : Option Bool :=
  match vc.videoElement with
  | some v => some (!v.paused)
  | none =>
    match vc.youtubePlayer with
    | some y => some (decide (y.playerState = PlayerState.PLAYING))
    | none => none

/-- `play()`: start whichever backend exists and optimistically add the
`video--is-playing` class. -/
def play (vc : VideoCtrl) : VideoCtrl :=
  { vc with
    videoElement := vc.videoElement.map fun v => { v with paused := false },
    youtubePlayer := vc.youtubePlayer.map fun y => { y with playerState := PlayerState.PLAYING },
    classPlaying := true }

/-- `pause()`: pause whichever backend exists and remove the class. -/
def pause (vc : VideoCtrl) : VideoCtrl :=
  { vc with
    videoElement := vc.videoElement.map fun v => { v with paused := true },
    youtubePlayer := vc.youtubePlayer.map fun y => { y with playerState := PlayerState.PAUSED },
    classPlaying := false }

/-- `togglePlayPause()`: pause when `isPlaying()` is truthy, else play
(an undefined `isPlaying()` is falsy in JavaScript, so it plays). -/
def togglePlayPause (vc : VideoCtrl) : VideoCtrl :=
  match isPlaying vc with
  | some true => pause vc
  | _ => play vc

/-- `mute()`: set the flag, mirror it to both backends, add the class. -/
def mute (vc : VideoCtrl) : VideoCtrl :=
  { vc with
    muted := true,
    videoElement := vc.videoElement.map fun v => { v with muted := true },
    youtubePlayer := vc.youtubePlayer.map fun y => { y with muted := true },
    classMuted := true }

/-- `volumeOn()`: clear the flag, mirror it, remove the class. -/
def volumeOn (vc : VideoCtrl) : VideoCtrl :=
  { vc with
    muted := false,
    videoElement := vc.videoElement.map fun v => { v with muted := false },
    youtubePlayer := vc.youtubePlayer.map fun y => { y with muted := false },
    classMuted := false }

/-- `toggleVolume()`: unmute when the flag is set, else mute. -/
def toggleVolume (vc : VideoCtrl) : VideoCtrl :=
  if vc.muted then volumeOn vc else mute vc

/-- The progress-bar click handler: `percentage = layerX / clientWidth * 100`,
`time = Math.round(percentage * duration / 100)`, applied to both backend
references that exist.  With no backend the duration is undefined and the
arithmetic produces no change (out of the claims' scope). -/
def progressClick (layerX clientWidth : ℚ) (vc : VideoCtrl) : VideoCtrl :=
  match getDuration vc with
  | some d =>
    let percentage := layerX / clientWidth * 100
    let time : ℤ := round (percentage * d / 100)
    { vc with
      videoElement := vc.videoElement.map fun v => { v with currentTime := (time : ℚ) },
      youtubePlayer := vc.youtubePlayer.map fun y => { y with seekedTo := some time } }
  | none => vc

/-- `timeUpdate()`: compute the played percentage, toggle the label
visibility (and clear the playing class at ≥ 99.99), then render the
progress width and both time labels. -/
def timeUpdate (vc : VideoCtrl) : VideoCtrl :=
  match getCurrentTime vc, getDuration vc with
  | some ct, some d =>
    let percentage := 100 * ct / d
    let vc' :=
      if percentage < 99.99 then { vc with currentTimeHidden := false }
      else { vc with currentTimeHidden := true, classPlaying := false }
    { vc' with
      progressWidth := percentage,
      currentTimeText := generateTimeIndicator ct,
      lengthText := generateTimeIndicator d }
  | _, _ => vc

/-- The `while` loop of `bufferUpdate`: scan the buffered ranges from index 0
upward for the first one containing `t`; running past the end raises (the
`TimeRanges.start` call throws), which the caller swallows — modelled as
`none`. -/
def findRange : List (ℚ × ℚ) → ℚ → Option (ℚ × ℚ)
  | [], _ => none
  | r :: rest, t => if r.1 ≤ t ∧ t ≤ r.2 then some r else findRange rest t

/-- `bufferUpdate()`: only works with the native element; any exception
(no element, or no range containing the position) is swallowed, leaving the
buffer-fill element unchanged. -/
def bufferUpdate (vc : VideoCtrl) : VideoCtrl :=
  match vc.videoElement with
  | none => vc
  | some v =>
    match findRange v.buffered v.currentTime with
    | none => vc
    | some r =>
      let loadStartPercentage := r.1 / v.duration * 100
      let loadEndPercentage := r.2 / v.duration * 100
      { vc with
        bufferWidth := round (loadEndPercentage - loadStartPercentage),
        bufferLeft := round loadStartPercentage }

/-- `willDestroy()`: just pauses. -/
def willDestroy (vc : VideoCtrl) : VideoCtrl :=
  pause vc

/-! ## C5: scrub-bar seek -/

/-- C5: for a click at offset `layerX` in a track of width `clientWidth > 0`,
the seek target applied to the active backend is
`round((layerX / clientWidth * 100) * duration / 100)`; at the 50% position
this is `round(duration / 2)`.  Stated for a widget with a native backend and
for one with a YouTube backend. -/
theorem progressClick_spec (x w : ℚ) (vc : VideoCtrl) (hw : 0 < w) :
    (∀ v, vc.videoElement = some v →
      (progressClick x w vc).videoElement =
        some { v with currentTime := ((round (x / w * 100 * v.duration / 100) : ℤ) : ℚ) } ∧
      (x = w / 2 →
        (progressClick x w vc).videoElement =
          some { v with currentTime := ((round (v.duration / 2) : ℤ) : ℚ) })) ∧
    (∀ y, vc.videoElement = none → vc.youtubePlayer = some y →
      (progressClick x w vc).youtubePlayer =
        some { y with seekedTo := some (round (x / w * 100 * y.duration / 100)) } ∧
      (x = w / 2 →
        (progressClick x w vc).youtubePlayer =
          some { y with seekedTo := some (round (y.duration / 2)) })) := by
  have key : ∀ d : ℚ, w / 2 / w * 100 * d / 100 = d / 2 := by
    intro d
    field_simp
    ring
  constructor
  · intro v hv
    have hd : getDuration vc = some v.duration := by simp [getDuration, hv]
    constructor
    · simp [progressClick, hd, hv]
    · intro hx
      subst hx
      simp [progressClick, hd, hv, key v.duration]
  · intro y hv hy
    have hd : getDuration vc = some y.duration := by simp [getDuration, hv, hy]
    constructor
    · simp [progressClick, hd, hy]
    · intro hx
      subst hx
      simp [progressClick, hd, hy, key y.duration]

/-- A concrete native video element: paused, duration 10, one buffered range. -/
def nativeSampleEl : VideoEl :=
  { paused := true, muted := false, currentTime := 0, duration := 10, buffered := [(0, 10)] }

/-- A concrete widget holding `nativeSampleEl` and no YouTube player. -/
def nativeSampleVC : VideoCtrl :=
  { videoElement := some nativeSampleEl, youtubePlayer := none, muted := false,
    classPlaying := false, classMuted := false, currentTimeHidden := false,
    progressWidth := 0, currentTimeText := [], lengthText := [],
    bufferLeft := 0, bufferWidth := 0 }

/-- Witness for C5: clicking at the 50% position of a width-2 track on a
duration-10 native video seeks to 5 = round(10/2). -/
theorem progressClick_spec_witness :
    (0 : ℚ) < 2 ∧
    (progressClick 1 2 nativeSampleVC).videoElement =
      some { nativeSampleEl with currentTime := 5 } := by
  have h := ((progressClick_spec 1 2 nativeSampleVC (by norm_num)).1
    nativeSampleEl rfl).2 (by norm_num)
  refine ⟨by norm_num, ?_⟩
  rw [h]
  norm_num [nativeSampleEl]

/-! ## C6: time-update rendering -/

/-- C6: a time-update render sets the progress-fill width to exactly
`100 * currentTime / duration` percent; when that percentage is ≥ 99.99 the
current-time label is hidden and the playing class is removed, and when it is
< 99.99 the label is shown (and the class is left alone). -/
theorem timeUpdate_spec (vc : VideoCtrl) (v : VideoEl) (hv : vc.videoElement = some v)
    (_hd : 0 < v.duration) (_h0 : 0 ≤ v.currentTime) (_h1 : v.currentTime ≤ v.duration) :
    (timeUpdate vc).progressWidth = 100 * v.currentTime / v.duration ∧
    (100 * v.currentTime / v.duration < 99.99 →
      (timeUpdate vc).currentTimeHidden = false ∧
      (timeUpdate vc).classPlaying = vc.classPlaying) ∧
    (99.99 ≤ 100 * v.currentTime / v.duration →
      (timeUpdate vc).currentTimeHidden = true ∧
      (timeUpdate vc).classPlaying = false) := by
  have hct : getCurrentTime vc = some v.currentTime := by simp [getCurrentTime, hv]
  have hdur : getDuration vc = some v.duration := by simp [getDuration, hv]
  by_cases hpct : 100 * v.currentTime / v.duration < 99.99
  · refine ⟨?_, fun _ => ⟨?_, ?_⟩, fun hge => absurd hpct (not_lt.mpr hge)⟩ <;>
      simp [timeUpdate, hct, hdur, if_pos hpct]
  · refine ⟨?_, fun hlt => absurd hlt hpct, fun _ => ⟨?_, ?_⟩⟩ <;>
      simp [timeUpdate, hct, hdur, if_neg hpct]

/-- Witness for C6 at currentTime 5 of duration 10 (50%, label shown). -/
theorem timeUpdate_spec_witness :
    (0 : ℚ) < 10 ∧ (0 : ℚ) ≤ 5 ∧ (5 : ℚ) ≤ 10 ∧
    (timeUpdate { nativeSampleVC with
        videoElement := some { nativeSampleEl with paused := false, currentTime := 5 } }
      ).progressWidth = 50 := by
  have h := (timeUpdate_spec
    { nativeSampleVC with
        videoElement := some { nativeSampleEl with paused := false, currentTime := 5 } }
    { nativeSampleEl with paused := false, currentTime := 5 }
    rfl (by norm_num [nativeSampleEl]) (by norm_num [nativeSampleEl])
    (by norm_num [nativeSampleEl])).1
  refine ⟨by norm_num, by norm_num, by norm_num, ?_⟩
  rw [h]
  norm_num [nativeSampleEl]

/-! ## C7: buffer rendering -/

/-- The scan of `bufferUpdate` is the first (lowest-index) buffered range
containing the position — a `List.find?`. -/
theorem findRange_eq_findFirst (l : List (ℚ × ℚ)) (t : ℚ) :
    findRange l t = l.find? fun r => decide (r.1 ≤ t) && decide (t ≤ r.2) := by
  induction l with
  | nil => rfl
  | cons r rest ih =>
    by_cases h : r.1 ≤ t ∧ t ≤ r.2
    · rw [findRange, if_pos h, List.find?_cons_of_pos]
      simp [h.1, h.2]
    · rw [findRange, if_neg h, List.find?_cons_of_neg, ih]
      simpa using h

/-- C7: on a buffering-progress signal the renderer looks for the first
buffered range containing the current position (a linear scan from index 0);
when one exists the buffer-fill left offset becomes
`round(rangeStart/duration*100)` and its width
`round(rangeEnd/duration*100 - rangeStart/duration*100)`; when none exists
nothing is updated (the internal exception is swallowed) — `bufferUpdate` is
a total function, so no exception propagates. -/
theorem bufferUpdate_spec (vc : VideoCtrl) (v : VideoEl) (hv : vc.videoElement = some v) :
    (findRange v.buffered v.currentTime = none → bufferUpdate vc = vc) ∧
    (∀ s e, findRange v.buffered v.currentTime = some (s, e) →
      (bufferUpdate vc).bufferLeft = round (s / v.duration * 100) ∧
      (bufferUpdate vc).bufferWidth =
        round (e / v.duration * 100 - s / v.duration * 100)) ∧
    findRange v.buffered v.currentTime =
      v.buffered.find? fun r => decide (r.1 ≤ v.currentTime) && decide (v.currentTime ≤ r.2) := by
  refine ⟨?_, ?_, findRange_eq_findFirst _ _⟩
  · intro hnone
    simp [bufferUpdate, hv, hnone]
  · intro s e hsome
    constructor <;> simp [bufferUpdate, hv, hsome]

/-- Witness for C7: position 5 lies in the single buffered range (0, 10) of a
duration-10 video, so the fill gets left offset 0% and width 100%. -/
theorem bufferUpdate_spec_witness :
    nativeSampleVC.videoElement = some nativeSampleEl ∧
    findRange nativeSampleEl.buffered nativeSampleEl.currentTime =
      some (0, 10) ∧
    (bufferUpdate nativeSampleVC).bufferLeft = 0 ∧
    (bufferUpdate nativeSampleVC).bufferWidth = 100 := by
  have hr : findRange nativeSampleEl.buffered nativeSampleEl.currentTime = some (0, 10) := by
    norm_num [findRange, nativeSampleEl]
  have h := ((bufferUpdate_spec nativeSampleVC nativeSampleEl rfl).2.1 0 10 hr)
  refine ⟨rfl, hr, ?_, ?_⟩
  · rw [h.1]
    norm_num [nativeSampleEl]
  · rw [h.2]
    norm_num [nativeSampleEl]

/-! ## C8: construction contract (source: constructor + `initVideoPlayer`)

The constructor reads `data-external`; a truthy value must match `/youtu/`
or the constructor throws (`Unsupportet third partie video`); with a falsy
value (attribute absent — `getAttribute` returns null — or present but
empty, since the empty string is falsy in JavaScript) it takes the native
branch, where `initVideoPlayer` throws (`No video element found!`) unless a
`video` child exists. -/

inductive CtorError where
  | unsupportedProvider
  | missingMediaElement
deriving DecidableEq, Repr

inductive InitMode where
  | native
  | youtubeDeferred
deriving DecidableEq, Repr

/-- The container markup as the constructor observes it: the value of the
`data-external` attribute (`none` when absent) and the number of `video`
child elements. -/
structure Markup where
  external : Option (List Char)
  videoChildren : Nat
deriving DecidableEq, Repr

/-- JavaScript truthiness of `getAttribute`'s result: null and the empty
string are falsy. -/
def externalTruthy : Option (List Char) → Bool
  | none => false
  | some s => !s.isEmpty

/-- The `/youtu/` regular-expression test: `"youtu"` occurs as a substring. -/
def containsYoutu : List Char → Bool
  | [] => false
  | c :: rest => List.isPrefixOf ['y', 'o', 'u', 't', 'u'] (c :: rest) || containsYoutu rest

/-- The synchronous branch structure of the constructor: youtube-deferred
setup, native setup (`initVideoPlayer`), or a thrown error. -/
def construct (m : Markup) : Except CtorError InitMode :=
  if externalTruthy m.external then
    if containsYoutu (m.external.getD []) then Except.ok InitMode.youtubeDeferred
    else Except.error CtorError.unsupportedProvider
  else
    if m.videoChildren ≠ 0 then Except.ok InitMode.native
    else Except.error CtorError.missingMediaElement

/-- Counterexample to C8 as stated: a container with a non-YouTube external
marker AND a native video child raises (the claim's "or with at least one
video child, constructs without raising" says it must not), and a container
with an empty-valued external marker (which does not reference YouTube) and
a video child constructs without raising via the native branch (the claim
says any non-YouTube marker raises `UnsupportedProviderError`). -/
theorem construct_counterexample :
    construct { external := some ("https://vimeo.com/123".data), videoChildren := 1 } =
      Except.error CtorError.unsupportedProvider ∧
    containsYoutu ("https://vimeo.com/123".data) = false ∧
    construct { external := some [], videoChildren := 1 } = Except.ok InitMode.native := by
  refine ⟨rfl, rfl, rfl⟩

/-- C8 amended: construction raises exactly when either (a) the container
carries an external marker with a truthy (non-empty) value not matching the
YouTube pattern (`UnsupportedProviderError`), or (b) the external marker is
falsy (absent or empty) and there is no native video child
(`MissingMediaElementError`); a container with a truthy YouTube-matching
marker, or with a falsy marker and at least one video child, constructs
without raising. -/
theorem construct_spec (m : Markup) :
    (∀ ext, m.external = some ext → ext ≠ [] → containsYoutu ext = false →
      construct m = Except.error CtorError.unsupportedProvider) ∧
    (externalTruthy m.external = false → m.videoChildren = 0 →
      construct m = Except.error CtorError.missingMediaElement) ∧
    (∀ ext, m.external = some ext → containsYoutu ext = true →
      construct m = Except.ok InitMode.youtubeDeferred) ∧
    (externalTruthy m.external = false → m.videoChildren ≠ 0 →
      construct m = Except.ok InitMode.native) ∧
    ((∃ err, construct m = Except.error err) ↔
      ((∃ ext, m.external = some ext ∧ ext ≠ [] ∧ containsYoutu ext = false) ∨
        (externalTruthy m.external = false ∧ m.videoChildren = 0))) := by
  obtain ⟨ext0, hext⟩ | hnone :
      (∃ e, m.external = some e) ∨ m.external = none := by
    cases h : m.external with
    | some e => exact Or.inl ⟨e, rfl⟩
    | none => exact Or.inr rfl
  · by_cases hemp : ext0 = []
    · subst hemp
      have ht : externalTruthy m.external = false := by simp [externalTruthy, hext]
      refine ⟨?_, ?_, ?_, ?_, ?_⟩
      · intro ext h1 h2 h3
        rw [hext] at h1
        cases h1
        exact absurd rfl h2
      · intro _ h0
        simp [construct, ht, h0]
      · intro ext h1 h2
        rw [hext] at h1
        cases h1
        cases h2
      · intro _ hn
        simp [construct, ht, hn]
      · constructor
        · intro ⟨err, herr⟩
          by_cases h0 : m.videoChildren = 0
          · exact Or.inr ⟨ht, h0⟩
          · rw [construct, ht] at herr
            simp [h0] at herr
        · intro h
          rcases h with ⟨ext, h1, h2, _⟩ | ⟨_, h0⟩
          · rw [hext] at h1
            cases h1
            exact absurd rfl h2
          · exact ⟨CtorError.missingMediaElement, by simp [construct, ht, h0]⟩
    · have ht : externalTruthy m.external = true := by
        simp [externalTruthy, hext, hemp]
      have hgd : m.external.getD [] = ext0 := by simp [hext]
      refine ⟨?_, ?_, ?_, ?_, ?_⟩
      · intro ext h1 _ h3
        rw [hext] at h1
        cases h1
        simp [construct, ht, hgd, h3]
      · intro hf
        rw [ht] at hf
        cases hf
      · intro ext h1 h2
        rw [hext] at h1
        cases h1
        simp [construct, ht, hgd, h2]
      · intro hf
        rw [ht] at hf
        cases hf
      · constructor
        · intro ⟨err, herr⟩
          rw [construct, ht] at herr
          by_cases hy : containsYoutu ext0
          · rw [hgd] at herr
            simp [hy] at herr
          · exact Or.inl ⟨ext0, hext, hemp, by simpa using hy⟩
        · intro h
          rcases h with ⟨ext, h1, _, h3⟩ | ⟨hf, _⟩
          · rw [hext] at h1
            cases h1
            exact ⟨CtorError.unsupportedProvider, by simp [construct, ht, hgd, h3]⟩
          · rw [ht] at hf
            cases hf
  · have ht : externalTruthy m.external = false := by simp [externalTruthy, hnone]
    refine ⟨?_, ?_, ?_, ?_, ?_⟩
    · intro ext h1
      rw [hnone] at h1
      cases h1
    · intro _ h0
      simp [construct, ht, h0]
    · intro ext h1
      rw [hnone] at h1
      cases h1
    · intro _ hn
      simp [construct, ht, hn]
    · constructor
      · intro ⟨err, herr⟩
        by_cases h0 : m.videoChildren = 0
        · exact Or.inr ⟨ht, h0⟩
        · rw [construct, ht] at herr
          simp [h0] at herr
      · intro h
        rcases h with ⟨ext, h1, _, _⟩ | ⟨_, h0⟩
        · rw [hnone] at h1
          cases h1
        · exact ⟨CtorError.missingMediaElement, by simp [construct, ht, h0]⟩

/-- Witness for the amended C8: a YouTube marker constructs deferred; a
markerless container with one video child constructs native. -/
theorem construct_spec_witness :
    construct { external := some ("https://youtu.be/dQw4w9WgXcQ".data), videoChildren := 0 } =
      Except.ok InitMode.youtubeDeferred ∧
    construct { external := none, videoChildren := 1 } = Except.ok InitMode.native := by
  constructor
  · exact (construct_spec _).2.2.1 _ rfl rfl
  · exact (construct_spec _).2.2.2.1 rfl (by decide)

/-! ## C9: double-toggle behaviour -/

/-- A reachable widget state whose backend is playing while the
`video--is-playing` class is absent (the ≥ 99.99% branch of `timeUpdate`
removes the class during playback). -/
def playingNoClassVC : VideoCtrl :=
  { nativeSampleVC with videoElement := some { nativeSampleEl with paused := false } }

/-- A reachable widget state whose native element is muted (e.g. a `muted`
markup attribute) while the controller's mute flag is still `false`. -/
def mutedElNoFlagVC : VideoCtrl :=
  { nativeSampleVC with videoElement := some { nativeSampleEl with muted := true } }

/-- Counterexample to C9 as stated, for both toggles: from a state where the
backend plays but the playing class is absent, two play/pause toggles leave
the class set instead of restoring it; and from a state where the element is
muted but the mute flag is `false`, two mute toggles (which branch on the
flag, not on the backend) end with the element unmuted instead of restoring
its backend mute state. -/
theorem toggle_counterexample :
    (togglePlayPause (togglePlayPause playingNoClassVC) ≠ playingNoClassVC ∧
      (togglePlayPause (togglePlayPause playingNoClassVC)).classPlaying = true ∧
      playingNoClassVC.classPlaying = false) ∧
    (toggleVolume (toggleVolume mutedElNoFlagVC) ≠ mutedElNoFlagVC ∧
      (toggleVolume (toggleVolume mutedElNoFlagVC)).videoElement =
        some { nativeSampleEl with muted := false } ∧
      mutedElNoFlagVC.videoElement = some { nativeSampleEl with muted := true }) := by
  refine ⟨⟨?_, rfl, rfl⟩, ?_, rfl, rfl⟩
  · intro h
    have := congrArg VideoCtrl.classPlaying h
    simp [playingNoClassVC, nativeSampleVC, nativeSampleEl,
      togglePlayPause, isPlaying, play, pause] at this
  · intro h
    have := congrArg VideoCtrl.videoElement h
    simp [mutedElNoFlagVC, nativeSampleVC, nativeSampleEl,
      toggleVolume, volumeOn, mute] at this

/-- C9 amended: two play/pause toggles always restore the backend playing
status, and two mute toggles always restore the mute flag.  Full restoration
of the widget state is characterised exactly: for a native-backend widget,
two play/pause toggles are the identity iff the playing class initially
equals the element's not-paused status, and two mute toggles are the
identity iff the element's mute state and the muted class both initially
equal the mute flag (the toggle branches on the flag, not on the backend);
for a YouTube-backend widget the same holds, play/pause additionally
requiring the player to start in Playing or Paused, the only two states the
toggles produce. -/
theorem toggle_involution (vc : VideoCtrl) :
    (∀ v, vc.videoElement = some v →
      ∃ v', (togglePlayPause (togglePlayPause vc)).videoElement = some v' ∧
        v'.paused = v.paused) ∧
    (toggleVolume (toggleVolume vc)).muted = vc.muted ∧
    (∀ v, vc.videoElement = some v → vc.youtubePlayer = none →
      (togglePlayPause (togglePlayPause vc) = vc ↔ vc.classPlaying = !v.paused)) ∧
    (∀ v, vc.videoElement = some v → vc.youtubePlayer = none →
      (toggleVolume (toggleVolume vc) = vc ↔
        v.muted = vc.muted ∧ vc.classMuted = vc.muted)) ∧
    (∀ y, vc.videoElement = none → vc.youtubePlayer = some y →
      (togglePlayPause (togglePlayPause vc) = vc ↔
        (y.playerState = PlayerState.PLAYING ∨ y.playerState = PlayerState.PAUSED) ∧
          vc.classPlaying = decide (y.playerState = PlayerState.PLAYING))) ∧
    (∀ y, vc.videoElement = none → vc.youtubePlayer = some y →
      (toggleVolume (toggleVolume vc) = vc ↔
        y.muted = vc.muted ∧ vc.classMuted = vc.muted)) := by
  obtain ⟨ve, yt, mu, cp, cm, hid, pw, ctt, ltx, bl, bw⟩ := vc
  refine ⟨?_, ?_, ?_, ?_, ?_, ?_⟩
  · rintro ⟨p, vm, ct, dur, buf⟩ rfl
    cases p with
    | false =>
      refine ⟨⟨false, vm, ct, dur, buf⟩, ?_, rfl⟩
      simp [togglePlayPause, isPlaying, play, pause]
    | true =>
      refine ⟨⟨true, vm, ct, dur, buf⟩, ?_, rfl⟩
      simp [togglePlayPause, isPlaying, play, pause]
  · cases mu <;> simp [toggleVolume, volumeOn, mute]
  · rintro ⟨p, vm, ct, dur, buf⟩ rfl rfl
    cases p <;> cases cp <;>
      simp [togglePlayPause, isPlaying, play, pause]
  · rintro ⟨p, vm, ct, dur, buf⟩ rfl rfl
    cases vm <;> cases mu <;> cases cm <;>
      simp [toggleVolume, volumeOn, mute]
  · rintro ⟨st, ym, yct, ydur, ysk⟩ rfl rfl
    cases st <;> cases cp <;>
      simp [togglePlayPause, isPlaying, play, pause]
  · rintro ⟨st, ym, yct, ydur, ysk⟩ rfl rfl
    cases ym <;> cases mu <;> cases cm <;>
      simp [toggleVolume, volumeOn, mute]

/-- Witness for the amended C9 at a consistent concrete state (paused with
the class absent; flag, element mute and class all unmuted): both
double-toggles are the identity, by the backward directions of the iffs. -/
theorem toggle_involution_witness :
    nativeSampleVC.videoElement = some nativeSampleEl ∧
    nativeSampleVC.classPlaying = !nativeSampleEl.paused ∧
    nativeSampleEl.muted = nativeSampleVC.muted ∧
    nativeSampleVC.classMuted = nativeSampleVC.muted ∧
    togglePlayPause (togglePlayPause nativeSampleVC) = nativeSampleVC ∧
    toggleVolume (toggleVolume nativeSampleVC) = nativeSampleVC := by
  have h := toggle_involution nativeSampleVC
  exact ⟨rfl, rfl, rfl, rfl,
    (h.2.2.1 nativeSampleEl rfl rfl).mpr rfl,
    (h.2.2.2.1 nativeSampleEl rfl rfl).mpr ⟨rfl, rfl⟩⟩

/-! ## C3: the 300ms YouTube polling timer

`initYouTubePlayer` installs an `onStateChange` handler that manipulates the
single `youTubeTimer` field: ENDED and PAUSED call `clearInterval`; PLAYING
calls `clearInterval` and then `setInterval(..., 300)`, storing the fresh
id; BUFFERING and CUED only render.  `willDestroy` calls `pause()`, which
sends `pauseVideo()` to the vendor but performs no `clearInterval` itself.
The browser timer table is modelled explicitly: `active` is the set of live
interval ids, `stored` the instance's `youTubeTimer` field, `nextId` the id
allocator. -/

structure TimerSys where
  nextId : Nat
  active : List Nat
  stored : Option Nat
deriving DecidableEq, Repr

/-- `clearInterval(this.youTubeTimer)`: a no-op while the field is still
undefined, otherwise the stored id stops being live (the field keeps its
value, as in the source). -/
def clearStoredInterval (ts : TimerSys) : TimerSys :=
  match ts.stored with
  | none => ts
  | some t => { ts with active := ts.active.filter fun i => i != t }

/-- `this.youTubeTimer = setInterval(..., 300)`: allocate a fresh live id and
store it. -/
def setNewInterval (ts : TimerSys) : TimerSys :=
  { nextId := ts.nextId + 1, active := ts.active ++ [ts.nextId], stored := some ts.nextId }

/-- The widget pieces the timer claim is about. -/
structure YTWidget where
  timers : TimerSys
  classPlaying : Bool
deriving DecidableEq, Repr

def initWidget : YTWidget :=
  { timers := { nextId := 0, active := [], stored := none }, classPlaying := false }

/-- The `onStateChange` handler's effect on the class and the timers (the
`timeUpdate` renders it also performs do not touch timers). -/
def onStateChange (e : PlayerState) (w : YTWidget) : YTWidget :=
  match e with
  | PlayerState.ENDED =>
    { w with classPlaying := false, timers := clearStoredInterval w.timers }
  | PlayerState.PLAYING =>
    { w with classPlaying := true, timers := setNewInterval (clearStoredInterval w.timers) }
  | PlayerState.BUFFERING => w
  | PlayerState.PAUSED =>
    { w with classPlaying := false, timers := clearStoredInterval w.timers }
  | PlayerState.CUED => w

/-- `willDestroy` for a YouTube-backed widget: `pause()` removes the class
and asks the vendor player to pause; it does not clear any interval. -/
def willDestroyYT (w : YTWidget) : YTWidget :=
  { w with classPlaying := false }

/-- Processing a sequence of state-change events. -/
def runEvents (es : List PlayerState) (w : YTWidget) : YTWidget :=
  es.foldl (fun w e => onStateChange e w) w

/-- The timer invariant: the only live interval is the stored one. -/
def TimerInv (ts : TimerSys) : Prop :=
  ts.active = [] ∨ ∃ t, ts.stored = some t ∧ ts.active = [t]

theorem timerInv_init : TimerInv initWidget.timers :=
  Or.inl rfl

theorem timerInv_clear (ts : TimerSys) (h : TimerInv ts) :
    (clearStoredInterval ts).active = [] := by
  rcases h with h | ⟨t, hs, ha⟩
  · rw [clearStoredInterval]
    cases ts.stored <;> simp [h]
  · rw [clearStoredInterval, hs]
    simp [ha]

theorem timerInv_step (e : PlayerState) (w : YTWidget) (h : TimerInv w.timers) :
    TimerInv (onStateChange e w).timers := by
  cases e
  · exact Or.inl (timerInv_clear _ h)
  · refine Or.inr ⟨(clearStoredInterval w.timers).nextId, rfl, ?_⟩
    have := timerInv_clear _ h
    simp [onStateChange, setNewInterval, this]
  · exact Or.inl (timerInv_clear _ h)
  · exact h
  · exact h

theorem timerInv_run (es : List PlayerState) (w : YTWidget) (h : TimerInv w.timers) :
    TimerInv (runEvents es w).timers := by
  induction es generalizing w with
  | nil => exact h
  | cons e t ih => exact ih _ (timerInv_step e w h)

/-- Counterexample to C3 as stated: after entering Playing, a transition
away from Playing into Buffering leaves the poll running (the BUFFERING
branch performs no `clearInterval`), and a synchronous teardown
(`willDestroy` = `pause()`) does not cancel it either. -/
theorem youTubeTimer_counterexample :
    (onStateChange PlayerState.BUFFERING
        (onStateChange PlayerState.PLAYING initWidget)).timers.active = [0] ∧
    (willDestroyYT (onStateChange PlayerState.PLAYING initWidget)).timers.active = [0] := by
  refine ⟨rfl, rfl⟩

/-- C3 amended: along every event sequence at most one poll is live per
instance; entering Playing first cancels any prior poll and leaves exactly
the fresh one live; transitions to Ended or Paused cancel the poll;
transitions to Buffering or Cued, and the synchronous part of widget
teardown, leave the timers untouched (the poll stops only once the backend
reports Paused/Ended through the handler). -/
theorem youTubeTimer_spec (es : List PlayerState) :
    (runEvents es initWidget).timers.active.length ≤ 1 ∧
    (onStateChange PlayerState.ENDED (runEvents es initWidget)).timers.active = [] ∧
    (onStateChange PlayerState.PAUSED (runEvents es initWidget)).timers.active = [] ∧
    (onStateChange PlayerState.PLAYING (runEvents es initWidget)).timers.active =
      [(runEvents es initWidget).timers.nextId] ∧
    (onStateChange PlayerState.BUFFERING (runEvents es initWidget)).timers =
      (runEvents es initWidget).timers ∧
    (onStateChange PlayerState.CUED (runEvents es initWidget)).timers =
      (runEvents es initWidget).timers ∧
    (willDestroyYT (runEvents es initWidget)).timers = (runEvents es initWidget).timers := by
  have hinv : TimerInv (runEvents es initWidget).timers :=
    timerInv_run es initWidget timerInv_init
  have hclear : (clearStoredInterval (runEvents es initWidget).timers).active = [] :=
    timerInv_clear _ hinv
  refine ⟨?_, ?_, ?_, ?_, rfl, rfl, rfl⟩
  · rcases hinv with h | ⟨t, _, ha⟩
    · simp [h]
    · simp [ha]
  · simpa [onStateChange] using hclear
  · simpa [onStateChange] using hclear
  · have hn : (clearStoredInterval (runEvents es initWidget).timers).nextId =
        (runEvents es initWidget).timers.nextId := by
      rw [clearStoredInterval]
      cases (runEvents es initWidget).timers.stored <;> rfl
    simp [onStateChange, setNewInterval, hclear, hn]

/-! ## C2: `parseYouTubeId` (source: YouTubeService.ts)

The source matches the URL against
`/^.*(youtu.be\/|v\/|u\/\w\/|embed\/|watch\?v=|\&v=)([^#\&\?]*).*/`
and returns group 2 exactly when it has 11 characters, else null.  The
regular expression is modelled by its meaning on this pattern: the greedy
`^.*` makes group 1 the LAST position where one of the six alternatives
matches (alternatives tried in source order at that position; `^.*` and the
`.` inside the first alternative match any character except a JavaScript
line terminator), and the greedy `([^#&?]*)` then captures the longest run
of non-`#&?` characters.  Strings are lists of characters. -/

inductive CPat where
  | lit (c : Char)
  | anyChar
  | wordChar
deriving DecidableEq, Repr

/-- JavaScript `.` without the s-flag: anything but a line terminator. -/
def dotMatch (c : Char) : Bool :=
  !(c == '\n' || c == '\r' || c == '\u2028' || c == '\u2029')

/-- JavaScript `\w`: `[A-Za-z0-9_]`. -/
def isWordChar (c : Char) : Bool := c.isAlphanum || c == '_'

/-- Match a literal pattern at the head of `s`, returning the remainder. -/
def matchPat : List CPat → List Char → Option (List Char)
  | [], s => some s
  | _ :: _, [] => none
  | CPat.lit l :: ps, c :: s => if c = l then matchPat ps s else none
  | CPat.anyChar :: ps, c :: s => if dotMatch c then matchPat ps s else none
  | CPat.wordChar :: ps, c :: s => if isWordChar c then matchPat ps s else none

def youtuBePat : List CPat :=
  [CPat.lit 'y', CPat.lit 'o', CPat.lit 'u', CPat.lit 't', CPat.lit 'u',
   CPat.anyChar, CPat.lit 'b', CPat.lit 'e', CPat.lit '/']
def vPat : List CPat := [CPat.lit 'v', CPat.lit '/']
def uPat : List CPat := [CPat.lit 'u', CPat.lit '/', CPat.wordChar, CPat.lit '/']
def embedPat : List CPat :=
  [CPat.lit 'e', CPat.lit 'm', CPat.lit 'b', CPat.lit 'e', CPat.lit 'd', CPat.lit '/']
def watchPat : List CPat :=
  [CPat.lit 'w', CPat.lit 'a', CPat.lit 't', CPat.lit 'c', CPat.lit 'h',
   CPat.lit '?', CPat.lit 'v', CPat.lit '=']
def ampVPat : List CPat := [CPat.lit '&', CPat.lit 'v', CPat.lit '=']

/-- The six alternatives of group 1, tried in source order. -/
def altAt (s : List Char) : Option (List Char) :=
  match matchPat youtuBePat s with
  | some r => some r
  | none =>
    match matchPat vPat s with
    | some r => some r
    | none =>
      match matchPat uPat s with
      | some r => some r
      | none =>
        match matchPat embedPat s with
        | some r => some r
        | none =>
          match matchPat watchPat s with
          | some r => some r
          | none => matchPat ampVPat s

/-- The greedy `^.*(...)`: the latest match position wins; positions beyond a
line terminator are unreachable for `.*`. -/
def findLast : List Char → Option (List Char)
  | [] => none
  | c :: rest =>
    match if dotMatch c then findLast rest else none with
    | some r => some r
    | none => altAt (c :: rest)

/-- The character class `[^#\&\?]` of group 2. -/
def notStop (c : Char) : Bool := !(c == '#' || c == '&' || c == '?')

/-- `parseYouTubeId`: group 2 is the greedy non-`#&?` run after the last
alternative match; return it exactly when it has 11 characters. -/
def parseYouTubeId (url : List Char) : Option (List Char) :=
  match findLast url with
  | none => none
  | some rem =>
    let captured := rem.takeWhile notStop
    if captured.length = 11 then some captured else none

/-- The YouTube video-id alphabet `[A-Za-z0-9_-]`. -/
def isIdChar (c : Char) : Bool := c.isAlphanum || c == '-' || c == '_'

theorem idChar_ne (c : Char) (h : isIdChar c = true) (x : Char)
    (hx : isIdChar x = false) : c ≠ x := by
  intro he
  rw [he, hx] at h
  cases h

/-- A pattern containing a literal outside the id alphabet cannot match
inside a string of id characters. -/
theorem matchPat_none_of_lit (ps : List CPat) :
    ∀ (k : Nat) (sp : Char), ps.get? k = some (CPat.lit sp) → isIdChar sp = false →
    ∀ s : List Char, (∀ c ∈ s, isIdChar c = true) → matchPat ps s = none := by
  induction ps with
  | nil => intro k sp hk; simp at hk
  | cons p pt ih =>
    intro k sp hk hsp s hs
    cases s with
    | nil =>
      cases p <;> rfl
    | cons c cs =>
      have hc : isIdChar c = true := hs c (List.mem_cons_self c cs)
      have hcs : ∀ x ∈ cs, isIdChar x = true := fun x hx => hs x (List.mem_cons_of_mem _ hx)
      cases k with
      | zero =>
        simp only [List.get?] at hk
        obtain rfl : p = CPat.lit sp := by injection hk
        have hne : c ≠ sp := idChar_ne c hc sp hsp
        simp [matchPat, hne]
      | succ k' =>
        have hk' : pt.get? k' = some (CPat.lit sp) := by simpa using hk
        cases p with
        | lit l =>
          by_cases hcl : c = l
          · simp [matchPat, hcl, ih k' sp hk' hsp cs hcs]
          · simp [matchPat, hcl]
        | anyChar =>
          by_cases hd : dotMatch c
          · simp [matchPat, hd, ih k' sp hk' hsp cs hcs]
          · simp [matchPat, hd]
        | wordChar =>
          by_cases hw : isWordChar c
          · simp [matchPat, hw, ih k' sp hk' hsp cs hcs]
          · simp [matchPat, hw]

/-- Every alternative contains `/`, `?` or `&`, so none matches inside a
string of id characters. -/
theorem altAt_none (s : List Char) (hs : ∀ c ∈ s, isIdChar c = true) :
    altAt s = none := by
  rw [altAt,
    matchPat_none_of_lit youtuBePat 8 '/' rfl (by decide) s hs,
    matchPat_none_of_lit vPat 1 '/' rfl (by decide) s hs,
    matchPat_none_of_lit uPat 1 '/' rfl (by decide) s hs,
    matchPat_none_of_lit embedPat 5 '/' rfl (by decide) s hs,
    matchPat_none_of_lit watchPat 5 '?' rfl (by decide) s hs,
    matchPat_none_of_lit ampVPat 0 '&' rfl (by decide) s hs]

theorem dotMatch_of_idChar (c : Char) (h : isIdChar c = true) : dotMatch c = true := by
  have h1 := idChar_ne c h '\n' (by decide)
  have h2 := idChar_ne c h '\r' (by decide)
  have h3 := idChar_ne c h '\u2028' (by decide)
  have h4 := idChar_ne c h '\u2029' (by decide)
  simp [dotMatch, h1, h2, h3, h4]

theorem notStop_of_idChar (c : Char) (h : isIdChar c = true) : notStop c = true := by
  have h1 := idChar_ne c h '#' (by decide)
  have h2 := idChar_ne c h '&' (by decide)
  have h3 := idChar_ne c h '?' (by decide)
  simp [notStop, h1, h2, h3]

theorem findLast_none (s : List Char) (hs : ∀ c ∈ s, isIdChar c = true) :
    findLast s = none := by
  induction s with
  | nil => rfl
  | cons c cs ih =>
    have hc : isIdChar c = true := hs c (List.mem_cons_self c cs)
    have hcs : ∀ x ∈ cs, isIdChar x = true := fun x hx => hs x (List.mem_cons_of_mem _ hx)
    simp only [findLast, dotMatch_of_idChar c hc, if_true, ih hcs]
    exact altAt_none _ hs

theorem takeWhile_of_idChars (id : List Char) (hid : ∀ c ∈ id, isIdChar c = true) :
    id.takeWhile notStop = id := by
  induction id with
  | nil => rfl
  | cons c cs ih =>
    have hc := notStop_of_idChar c (hid c (List.mem_cons_self c cs))
    have hcs : ∀ x ∈ cs, isIdChar x = true := fun x hx => hid x (List.mem_cons_of_mem _ hx)
    simp [List.takeWhile, hc, ih hcs]

theorem findLast_youtuBe (id : List Char) (hid : ∀ c ∈ id, isIdChar c = true) :
    findLast ("https://youtu.be/".data ++ id) = some id := by
  have hFL : findLast id = none := findLast_none id hid
  show findLast ('h' :: 't' :: 't' :: 'p' :: 's' :: ':' :: '/' :: '/' :: 'y' :: 'o' :: 'u' :: 't' :: 'u' :: '.' :: 'b' :: 'e' :: '/' :: id) = some id
  simp [findLast, altAt, matchPat, dotMatch, isWordChar, youtuBePat, vPat, uPat,
    embedPat, watchPat, ampVPat, hFL]

theorem findLast_v (id : List Char) (hid : ∀ c ∈ id, isIdChar c = true) :
    findLast ("https://www.youtube.com/v/".data ++ id) = some id := by
  have hFL : findLast id = none := findLast_none id hid
  show findLast ('h' :: 't' :: 't' :: 'p' :: 's' :: ':' :: '/' :: '/' :: 'w' :: 'w' :: 'w' :: '.' :: 'y' :: 'o' :: 'u' :: 't' :: 'u' :: 'b' :: 'e' :: '.' :: 'c' :: 'o' :: 'm' :: '/' :: 'v' :: '/' :: id) = some id
  simp [findLast, altAt, matchPat, dotMatch, isWordChar, youtuBePat, vPat, uPat,
    embedPat, watchPat, ampVPat, hFL]

theorem findLast_u (id : List Char) (hid : ∀ c ∈ id, isIdChar c = true) :
    findLast ("https://www.youtube.com/u/x/".data ++ id) = some id := by
  have hFL : findLast id = none := findLast_none id hid
  show findLast ('h' :: 't' :: 't' :: 'p' :: 's' :: ':' :: '/' :: '/' :: 'w' :: 'w' :: 'w' :: '.' :: 'y' :: 'o' :: 'u' :: 't' :: 'u' :: 'b' :: 'e' :: '.' :: 'c' :: 'o' :: 'm' :: '/' :: 'u' :: '/' :: 'x' :: '/' :: id) = some id
  simp [findLast, altAt, matchPat, dotMatch, isWordChar, youtuBePat, vPat, uPat,
    embedPat, watchPat, ampVPat, hFL]

theorem findLast_embed (id : List Char) (hid : ∀ c ∈ id, isIdChar c = true) :
    findLast ("https://www.youtube.com/embed/".data ++ id) = some id := by
  have hFL : findLast id = none := findLast_none id hid
  show findLast ('h' :: 't' :: 't' :: 'p' :: 's' :: ':' :: '/' :: '/' :: 'w' :: 'w' :: 'w' :: '.' :: 'y' :: 'o' :: 'u' :: 't' :: 'u' :: 'b' :: 'e' :: '.' :: 'c' :: 'o' :: 'm' :: '/' :: 'e' :: 'm' :: 'b' :: 'e' :: 'd' :: '/' :: id) = some id
  simp [findLast, altAt, matchPat, dotMatch, isWordChar, youtuBePat, vPat, uPat,
    embedPat, watchPat, ampVPat, hFL]

theorem findLast_watch (id : List Char) (hid : ∀ c ∈ id, isIdChar c = true) :
    findLast ("https://www.youtube.com/watch?v=".data ++ id) = some id := by
  have hFL : findLast id = none := findLast_none id hid
  show findLast ('h' :: 't' :: 't' :: 'p' :: 's' :: ':' :: '/' :: '/' :: 'w' :: 'w' :: 'w' :: '.' :: 'y' :: 'o' :: 'u' :: 't' :: 'u' :: 'b' :: 'e' :: '.' :: 'c' :: 'o' :: 'm' :: '/' :: 'w' :: 'a' :: 't' :: 'c' :: 'h' :: '?' :: 'v' :: '=' :: id) = some id
  simp [findLast, altAt, matchPat, dotMatch, isWordChar, youtuBePat, vPat, uPat,
    embedPat, watchPat, ampVPat, hFL]

theorem findLast_ampV (id : List Char) (hid : ∀ c ∈ id, isIdChar c = true) :
    findLast ("https://www.youtube.com/watch?x=1&v=".data ++ id) = some id := by
  have hFL : findLast id = none := findLast_none id hid
  show findLast ('h' :: 't' :: 't' :: 'p' :: 's' :: ':' :: '/' :: '/' :: 'w' :: 'w' :: 'w' :: '.' :: 'y' :: 'o' :: 'u' :: 't' :: 'u' :: 'b' :: 'e' :: '.' :: 'c' :: 'o' :: 'm' :: '/' :: 'w' :: 'a' :: 't' :: 'c' :: 'h' :: '?' :: 'x' :: '=' :: '1' :: '&' :: 'v' :: '=' :: id) = some id
  simp [findLast, altAt, matchPat, dotMatch, isWordChar, youtuBePat, vPat, uPat,
    embedPat, watchPat, ampVPat, hFL]

/-- C2: for each of the supported YouTube URL shapes (`youtu.be/`, `/v/`,
`/u/<x>/`, `/embed/`, `?v=` — realised in URLs as `watch?v=` — and `&v=`)
carrying an 11-character id over the YouTube id alphabet, `parseYouTubeId`
returns exactly that id; for every input the regular expression does not
match, and for every input whose captured group is not exactly 11 characters
long, it returns the not-found sentinel `none` — and being a total function
it never throws. -/
theorem parseYouTubeId_spec :
    (∀ id : List Char, id.length = 11 → (∀ c ∈ id, isIdChar c = true) →
      parseYouTubeId ("https://youtu.be/".data ++ id) = some id ∧
      parseYouTubeId ("https://www.youtube.com/v/".data ++ id) = some id ∧
      parseYouTubeId ("https://www.youtube.com/u/x/".data ++ id) = some id ∧
      parseYouTubeId ("https://www.youtube.com/embed/".data ++ id) = some id ∧
      parseYouTubeId ("https://www.youtube.com/watch?v=".data ++ id) = some id ∧
      parseYouTubeId ("https://www.youtube.com/watch?x=1&v=".data ++ id) = some id) ∧
    (∀ url : List Char, findLast url = none → parseYouTubeId url = none) ∧
    (∀ url rem : List Char, findLast url = some rem →
      (rem.takeWhile notStop).length ≠ 11 → parseYouTubeId url = none) := by
  refine ⟨?_, ?_, ?_⟩
  · intro id h11 hid
    have htw := takeWhile_of_idChars id hid
    have key : ∀ pre : List Char, findLast (pre ++ id) = some id →
        parseYouTubeId (pre ++ id) = some id := by
      intro pre h
      rw [parseYouTubeId, h]
      simp [htw, h11]
    exact ⟨key _ (findLast_youtuBe id hid), key _ (findLast_v id hid),
      key _ (findLast_u id hid), key _ (findLast_embed id hid),
      key _ (findLast_watch id hid), key _ (findLast_ampV id hid)⟩
  · intro url h
    rw [parseYouTubeId, h]
  · intro url rem h hlen
    rw [parseYouTubeId, h]
    simp [hlen]

/-- Witness for C2 at the id `dQw4w9WgXcQ` embedded in a `youtu.be/` URL. -/
theorem parseYouTubeId_spec_witness :
    ("dQw4w9WgXcQ".data.length = 11) ∧
    (∀ c ∈ "dQw4w9WgXcQ".data, isIdChar c = true) ∧
    parseYouTubeId ("https://youtu.be/dQw4w9WgXcQ".data) =
      some ("dQw4w9WgXcQ".data) := by
  have h := (parseYouTubeId_spec.1 "dQw4w9WgXcQ".data (by decide) (by decide)).1
  refine ⟨by decide, by decide, ?_⟩
  have heq : "https://youtu.be/dQw4w9WgXcQ".data =
      "https://youtu.be/".data ++ "dQw4w9WgXcQ".data := rfl
  rw [heq]
  exact h
